import Mathlib

/-!
Verification development for the meeting-bot repository.

This file shallowly embeds the code relevant to the frozen claims:
the join retry policy (src/util: joinMeetWithRetry, processMeetingJoin),
the Zoom session status history (ZoomBot.join / ZoomBot.joinMeeting),
the in-page recording duration ceiling (RecordingTask.execute /
ZoomBot.recordMeetingPage), the durable recorder and live-restream sink
shutdown (FFmpegRecorder.stop, YouTubeLiveStreamer.stop), the live-restream
chunk write (YouTubeLiveStreamer.writeChunk) and the in-page chunk handler
(ondataavailable), together with the configuration defaults (config.ts).
-/

/-- Errors caught by the join retry machinery, mirroring the error taxonomy
used in joinMeetWithRetry: a WaitingAtLobbyRetryError (message and captured
page body text), a KnownError (name, message, retryable flag and maxRetries
ceiling), or any other unclassified error. -/
inductive CaughtError
  | waitingAtLobby (message bodyText : String)
  | known (name message : String) (retryable : Bool) (maxRetries : Nat)
  | unclassified (message : String)
deriving DecidableEq, Repr

/-- Observable events of one joinMeetWithRetry run: an invocation of the
join processor (indexed by how many invocations happened before it) and a
sleep of a given number of milliseconds. -/
inductive JoinEvent
  | invokeProcessor (attempt : Nat)
  | sleepMs (ms : Nat)
deriving DecidableEq, Repr

/-- Result of running joinMeetWithRetry: the ordered list of observable
events, and the error propagated to the caller (none when the call
returned normally). -/
structure JoinRunResult where
  events : List JoinEvent
  thrown : Option CaughtError
deriving DecidableEq, Repr

namespace config

/-- config.ts: retryCount is Number(RETRY_COUNT) when the environment
variable is set, else 2. -/
def retryCount (envRetry : Option Nat) : Nat := envRetry.getD 2

/-- config.ts: maxRecordingDuration is Number(MAX_RECORDING_DURATION_MINUTES)
when the environment variable is set, else 180 minutes. -/
def maxRecordingDuration (envMinutes : Option Nat) : Nat := envMinutes.getD 180

end config

/-- Embedding of joinMeetWithRetry (meetJoinUtils). The processor is
modelled as a function from the invocation index to the error it raises
on that invocation (none means that invocation succeeds). cfgRetry is
config.retryCount. attempt counts prior processor invocations; retryCount
is the function parameter of the same name. The body mirrors the source:
a WaitingAtLobbyRetryError is rethrown at once; a non-retryable KnownError
is rethrown at once; a retryable KnownError with (retryCount + 1) >=
maxRetries is rethrown at once; otherwise retryCount is incremented, the
code sleeps retryCount * 30000 ms, and recurses when retryCount <=
config.retryCount, else rethrows. -/
def joinMeetWithRetry (cfgRetry : Nat) (proc : Nat → Option CaughtError)
    (attempt retryCount : Nat) : JoinRunResult :=
  match proc attempt with
  | none => ⟨[JoinEvent.invokeProcessor attempt], none⟩
  | some (CaughtError.waitingAtLobby m b) =>
      ⟨[JoinEvent.invokeProcessor attempt], some (CaughtError.waitingAtLobby m b)⟩
  | some (CaughtError.known n m false mr) =>
      ⟨[JoinEvent.invokeProcessor attempt], some (CaughtError.known n m false mr)⟩
  | some (CaughtError.known n m true mr) =>
      if retryCount + 1 ≥ mr then
        ⟨[JoinEvent.invokeProcessor attempt], some (CaughtError.known n m true mr)⟩
      else
        if h : retryCount + 1 ≤ cfgRetry then
          let rest := joinMeetWithRetry cfgRetry proc (attempt + 1) (retryCount + 1)
          ⟨JoinEvent.invokeProcessor attempt ::
            JoinEvent.sleepMs ((retryCount + 1) * 30000) :: rest.events, rest.thrown⟩
        else
          ⟨[JoinEvent.invokeProcessor attempt,
            JoinEvent.sleepMs ((retryCount + 1) * 30000)],
            some (CaughtError.known n m true mr)⟩
  | some (CaughtError.unclassified m) =>
      if h : retryCount + 1 ≤ cfgRetry then
        let rest := joinMeetWithRetry cfgRetry proc (attempt + 1) (retryCount + 1)
        ⟨JoinEvent.invokeProcessor attempt ::
          JoinEvent.sleepMs ((retryCount + 1) * 30000) :: rest.events, rest.thrown⟩
      else
        ⟨[JoinEvent.invokeProcessor attempt,
          JoinEvent.sleepMs ((retryCount + 1) * 30000)],
          some (CaughtError.unclassified m)⟩
termination_by cfgRetry + 1 - retryCount
decreasing_by all_goals omega

/-- Number of processor invocations recorded in a run. -/
def countProcessorInvocations (r : JoinRunResult) : Nat :=
  r.events.countP (fun e =>
    match e with
    | JoinEvent.invokeProcessor _ => true
    | _ => false)

/-- The backoff sleeps of a run, in order, in milliseconds. -/
def sleepsOf (r : JoinRunResult) : List Nat :=
  r.events.filterMap (fun e =>
    match e with
    | JoinEvent.sleepMs ms => some ms
    | _ => none)

/-- Result of processMeetingJoin: the inner joinMeetWithRetry run, whether
the permanent-failure log line was emitted, and the error propagated to
the caller of processMeetingJoin (none when it returns normally). -/
structure ProcessJoinResult where
  run : JoinRunResult
  loggedPermanentFailure : Bool
  thrown : Option CaughtError
deriving DecidableEq, Repr

/-- Embedding of processMeetingJoin: it invokes joinMeetWithRetry with
retryCount 0 inside a try/catch whose catch block only classifies and logs
the error, never rethrowing. -/
def processMeetingJoin (cfgRetry : Nat) (proc : Nat → Option CaughtError) :
    ProcessJoinResult :=
  let run := joinMeetWithRetry cfgRetry proc 0 0
  match run.thrown with
  | none => ⟨run, false, none⟩
  | some _ => ⟨run, true, none⟩

/-- The processor that raises, on every invocation, a retryable KnownError
with maxRetries = 2 (concrete input for the retry-law claims). -/
def alwaysKnownMax2 : Nat → Option CaughtError :=
  fun _ => some (CaughtError.known "TransientError" "transient failure" true 2)

theorem joinMeetWithRetry_lobby_immediate (cfgRetry retryCount attempt : Nat)
    (proc : Nat → Option CaughtError) (m b : String)
    (h : proc attempt = some (CaughtError.waitingAtLobby m b)) :
    joinMeetWithRetry cfgRetry proc attempt retryCount =
      ⟨[JoinEvent.invokeProcessor attempt],
        some (CaughtError.waitingAtLobby m b)⟩ := by
  unfold joinMeetWithRetry
  rw [h]

theorem joinMeetWithRetry_nonretryable_immediate (cfgRetry retryCount attempt : Nat)
    (proc : Nat → Option CaughtError) (n m : String) (mr : Nat)
    (h : proc attempt = some (CaughtError.known n m false mr)) :
    joinMeetWithRetry cfgRetry proc attempt retryCount =
      ⟨[JoinEvent.invokeProcessor attempt],
        some (CaughtError.known n m false mr)⟩ := by
  unfold joinMeetWithRetry
  rw [h]

/-- Helper: full computation of a joinMeetWithRetry run against a processor
that raises a retryable KnownError with maxRetries = 2 on every attempt,
at the default config.retryCount = 2. -/
lemma joinMeetWithRetry_max2_run (n m : String)
    (proc : Nat → Option CaughtError)
    (h : ∀ k, proc k = some (CaughtError.known n m true 2)) :
    joinMeetWithRetry 2 proc 0 0 =
      ⟨[JoinEvent.invokeProcessor 0, JoinEvent.sleepMs 30000,
        JoinEvent.invokeProcessor 1],
        some (CaughtError.known n m true 2)⟩ := by
  unfold joinMeetWithRetry
  rw [h 0]
  simp only [ge_iff_le]
  rw [if_neg (by omega)]
  rw [dif_pos (by omega)]
  unfold joinMeetWithRetry
  rw [h 1]
  simp

theorem joinMeetWithRetry_max2_single_retry (n m : String)
    (proc : Nat → Option CaughtError)
    (h : ∀ k, proc k = some (CaughtError.known n m true 2)) :
    joinMeetWithRetry 2 proc 0 0 =
      ⟨[JoinEvent.invokeProcessor 0, JoinEvent.sleepMs 30000,
        JoinEvent.invokeProcessor 1],
        some (CaughtError.known n m true 2)⟩ :=
  joinMeetWithRetry_max2_run n m proc h

theorem joinMeetWithRetry_c1_counterexample :
    countProcessorInvocations (joinMeetWithRetry 2 alwaysKnownMax2 0 0) = 2 ∧
    sleepsOf (joinMeetWithRetry 2 alwaysKnownMax2 0 0) = [30000] ∧
    ¬ (countProcessorInvocations (joinMeetWithRetry 2 alwaysKnownMax2 0 0) = 3 ∧
        sleepsOf (joinMeetWithRetry 2 alwaysKnownMax2 0 0) = [30000, 60000]) := by
  have hrun : joinMeetWithRetry 2 alwaysKnownMax2 0 0 =
      ⟨[JoinEvent.invokeProcessor 0, JoinEvent.sleepMs 30000,
        JoinEvent.invokeProcessor 1],
        some (CaughtError.known "TransientError" "transient failure" true 2)⟩ :=
    joinMeetWithRetry_max2_run _ _ alwaysKnownMax2 (fun _ => rfl)
  rw [hrun]
  refine ⟨rfl, rfl, ?_⟩
  intro hcl
  simp [countProcessorInvocations] at hcl

theorem processMeetingJoin_never_rethrows (cfgRetry : Nat)
    (proc : Nat → Option CaughtError) :
    (processMeetingJoin cfgRetry proc).thrown = none := by
  unfold processMeetingJoin
  dsimp only
  split <;> rfl

/-- The processor that raises a WaitingAtLobbyRetryError on every
invocation, with the message and body text used by ZoomBot.joinMeeting. -/
def alwaysLobby : Nat → Option CaughtError :=
  fun _ => some (CaughtError.waitingAtLobby "Zoom bot could not enter the meeting..." "")

/-- The processor that raises a non-retryable KnownError on every
invocation. -/
def alwaysNonRetryable : Nat → Option CaughtError :=
  fun _ => some (CaughtError.known "KnownError" "request denied" false 3)

theorem joinMeetWithRetry_lobby_immediate_witness :
    joinMeetWithRetry 5 alwaysLobby 0 7 =
      ⟨[JoinEvent.invokeProcessor 0],
        some (CaughtError.waitingAtLobby "Zoom bot could not enter the meeting..." "")⟩ :=
  joinMeetWithRetry_lobby_immediate 5 7 0 alwaysLobby _ _ rfl

theorem joinMeetWithRetry_nonretryable_immediate_witness :
    joinMeetWithRetry 2 alwaysNonRetryable 0 0 =
      ⟨[JoinEvent.invokeProcessor 0],
        some (CaughtError.known "KnownError" "request denied" false 3)⟩ :=
  joinMeetWithRetry_nonretryable_immediate 2 0 0 alwaysNonRetryable _ _ _ rfl

theorem joinMeetWithRetry_max2_single_retry_witness :
    joinMeetWithRetry 2 alwaysKnownMax2 0 0 =
      ⟨[JoinEvent.invokeProcessor 0, JoinEvent.sleepMs 30000,
        JoinEvent.invokeProcessor 1],
        some (CaughtError.known "TransientError" "transient failure" true 2)⟩ :=
  joinMeetWithRetry_max2_single_retry "TransientError" "transient failure"
    alwaysKnownMax2 (fun _ => rfl)

namespace RecordingTask

/-- Kinds of events that can stop the in-page recording: the hard duration
ceiling timer armed by RecordingTask.execute (setTimeout(stopTheRecording,
duration)), or a collaborator-detected end condition (lone participant,
silence, host-ended meeting), each of which also calls stopTheRecording. -/
inductive TimerEventKind
  | durationCeilingFire
  | collaboratorStop
deriving DecidableEq, Repr

/-- In-page recorder state: whether the MediaRecorder is still recording,
whether the duration-ceiling timeout is still armed (timeoutId not
cleared), whether the inactivity-detection timeout/intervals are still
armed, and whether screenAppMeetEnd was called. -/
structure RecorderState where
  mediaRecorderActive : Bool
  durationTimerArmed : Bool
  inactivityDetectionArmed : Bool
  meetEndCalled : Bool
deriving DecidableEq, Repr

/-- State right after startRecording returns: recording, with both the
duration-ceiling timer and the inactivity-detection timer armed. -/
def startRecordingState : RecorderState := ⟨true, true, true, false⟩

/-- stopTheRecording: stops the MediaRecorder and its tracks, clears the
duration timeout and the inactivity-detection timeout, and calls
screenAppMeetEnd. -/
def stopTheRecording (_s : RecorderState) : RecorderState := ⟨false, false, false, true⟩

/-- Effect of one timer event on the recorder state, per setTimeout
semantics: the duration-ceiling callback runs only if its timeout was not
cleared; a collaborator stop runs only while its detection machinery is
still armed. Both run stopTheRecording. -/
def applyTimerEvent (s : RecorderState) : TimerEventKind → RecorderState
  | TimerEventKind.durationCeilingFire =>
      if s.durationTimerArmed then stopTheRecording s else s
  | TimerEventKind.collaboratorStop =>
      if s.inactivityDetectionArmed then stopTheRecording s else s

/-- Insert a timed event into a list sorted by fire time. -/
def insertByTime (e : Nat × TimerEventKind) :
    List (Nat × TimerEventKind) → List (Nat × TimerEventKind)
  | [] => [e]
  | x :: xs => if e.1 ≤ x.1 then e :: x :: xs else x :: insertByTime e xs

/-- Sort timed events by fire time. -/
def sortByTime : List (Nat × TimerEventKind) → List (Nat × TimerEventKind)
  | [] => []
  | x :: xs => insertByTime x (sortByTime xs)

/-- The timer events due by wall-clock time t, in fire order: the duration
ceiling fires at time = duration (its setTimeout delay), and each
collaborator-detected stop fires at its detection time. -/
def recorderEventsUpTo (duration : Nat) (collaboratorStops : List Nat)
    (t : Nat) : List (Nat × TimerEventKind) :=
  sortByTime (((duration, TimerEventKind.durationCeilingFire) ::
    collaboratorStops.map (fun u => (u, TimerEventKind.collaboratorStop))).filter
      (fun e => e.1 ≤ t))

/-- Recorder state at wall-clock time t (ms after startRecording), given
the duration-ceiling delay and the times of collaborator-detected stops. -/
def recorderStateAt (duration : Nat) (collaboratorStops : List Nat)
    (t : Nat) : RecorderState :=
  (recorderEventsUpTo duration collaboratorStops t).foldl
    (fun s e => applyTimerEvent s e.2) startRecordingState

end RecordingTask

/-- ZoomBot.recordMeetingPage: the duration handed to RecordingTask is
config.maxRecordingDuration * 60 * 1000 milliseconds. -/
def recordMeetingDuration (envMinutes : Option Nat) : Nat :=
  config.maxRecordingDuration envMinutes * 60 * 1000

theorem recording_duration_ceiling (envMinutes : Option Nat) (t : Nat) :
    RecordingTask.startRecordingState.durationTimerArmed = true ∧
    recordMeetingDuration none = 180 * 60 * 1000 ∧
    RecordingTask.recorderStateAt (recordMeetingDuration envMinutes) []
        (recordMeetingDuration envMinutes) =
      RecordingTask.stopTheRecording RecordingTask.startRecordingState ∧
    (recordMeetingDuration envMinutes ≤ t →
      (RecordingTask.recorderStateAt (recordMeetingDuration envMinutes) [] t).mediaRecorderActive
        = false) := by
  refine ⟨rfl, rfl, ?_, ?_⟩
  · simp [RecordingTask.recorderStateAt, RecordingTask.recorderEventsUpTo,
      RecordingTask.sortByTime, RecordingTask.insertByTime,
      RecordingTask.applyTimerEvent, RecordingTask.startRecordingState]
  · intro ht
    simp [RecordingTask.recorderStateAt, RecordingTask.recorderEventsUpTo,
      RecordingTask.sortByTime, RecordingTask.insertByTime,
      RecordingTask.applyTimerEvent, RecordingTask.startRecordingState,
      RecordingTask.stopTheRecording, ht]

theorem recording_duration_ceiling_witness :
    recordMeetingDuration none ≤ 10800000 ∧
    (RecordingTask.recorderStateAt (recordMeetingDuration none) [] 10800000).mediaRecorderActive
      = false :=
  ⟨by decide, (recording_duration_ceiling none 10800000).2.2.2 (by decide)⟩

/-- Bot lifecycle statuses pushed into the _state array of ZoomBot.join. -/
inductive BotStatus
  | processing
  | joined
  | finished
  | failed
deriving DecidableEq, Repr

/-- How far ZoomBot.joinMeeting got before throwing (if it threw):
it may throw before pushState('joined') (navigation, lobby wait, web
client detection), after 'joined' but before 'finished' (recording
phase), or run to completion having pushed 'joined' then 'finished'. -/
inductive JoinPhaseResult
  | failedBeforeJoined
  | failedAfterJoined
  | succeeded
deriving DecidableEq, Repr

/-- The statuses ZoomBot.joinMeeting pushes via pushState, in order. -/
def joinMeetingPushed : JoinPhaseResult → List BotStatus
  | JoinPhaseResult.failedBeforeJoined => []
  | JoinPhaseResult.failedAfterJoined => [BotStatus.joined]
  | JoinPhaseResult.succeeded => [BotStatus.joined, BotStatus.finished]

/-- Whether ZoomBot.joinMeeting throws in the given phase outcome. -/
def joinMeetingThrows : JoinPhaseResult → Bool
  | JoinPhaseResult.succeeded => false
  | _ => true

namespace ZoomBot

/-- Embedding of ZoomBot.join: _state starts as ['processing'];
joinMeeting appends its pushes; if joinMeeting throws, or it succeeds and
the subsequent upload (or status patch) throws, the catch block appends
'failed' unless 'finished' is already present, and rethrows. Returns the
final status history and whether join rethrew an error. -/
def join (jp : JoinPhaseResult) (uploadFails : Bool) : List BotStatus × Bool :=
  let stateTry := BotStatus.processing :: joinMeetingPushed jp
  let errorRaised := joinMeetingThrows jp ||
    (decide (jp = JoinPhaseResult.succeeded) && uploadFails)
  if errorRaised then
    (if stateTry.contains BotStatus.finished then stateTry
      else stateTry ++ [BotStatus.failed], true)
  else
    (stateTry, false)

end ZoomBot

theorem zoomBot_status_history (jp : JoinPhaseResult) (uploadFails : Bool) :
    (ZoomBot.join jp uploadFails).1.head? = some BotStatus.processing ∧
    (jp = JoinPhaseResult.succeeded → uploadFails = false →
      (ZoomBot.join jp uploadFails).1 =
        [BotStatus.processing, BotStatus.joined, BotStatus.finished]) ∧
    ((ZoomBot.join jp uploadFails).2 = true →
      ((ZoomBot.join jp uploadFails).1.contains BotStatus.failed = true ↔
        (ZoomBot.join jp uploadFails).1.contains BotStatus.finished = false)) ∧
    ((ZoomBot.join jp uploadFails).1.getLast? = some BotStatus.finished ∨
      (ZoomBot.join jp uploadFails).1.getLast? = some BotStatus.failed) := by
  cases jp <;> cases uploadFails <;>
    simp [ZoomBot.join, joinMeetingPushed, joinMeetingThrows]

theorem zoomBot_status_history_witness :
    (ZoomBot.join JoinPhaseResult.failedBeforeJoined false).1.head? =
      some BotStatus.processing ∧
    ((ZoomBot.join JoinPhaseResult.failedBeforeJoined false).2 = true →
      ((ZoomBot.join JoinPhaseResult.failedBeforeJoined false).1.contains BotStatus.failed = true ↔
        (ZoomBot.join JoinPhaseResult.failedBeforeJoined false).1.contains BotStatus.finished = false)) ∧
    ((ZoomBot.join JoinPhaseResult.failedBeforeJoined false).1.getLast? = some BotStatus.finished ∨
      (ZoomBot.join JoinPhaseResult.failedBeforeJoined false).1.getLast? = some BotStatus.failed) :=
  ⟨(zoomBot_status_history JoinPhaseResult.failedBeforeJoined false).1,
    (zoomBot_status_history JoinPhaseResult.failedBeforeJoined false).2.2.1,
    (zoomBot_status_history JoinPhaseResult.failedBeforeJoined false).2.2.2⟩

/-- State of a child process's stdin stream: writable, absent (null), or
broken (writing to it throws). -/
inductive StdinState
  | writable
  | absent
  | broken
deriving DecidableEq, Repr

namespace YouTubeLiveStreamer

/-- Handle on the spawned ffmpeg live subprocess. -/
structure LiveProc where
  stdin : StdinState
deriving DecidableEq, Repr

/-- The YouTubeLiveStreamer instance state: its (nullable) subprocess. -/
structure StreamerState where
  process : Option LiveProc
deriving DecidableEq, Repr

/-- Environment behaviour of the live subprocess during stop: the delay
(ms) after the quit signal at which it would exit on its own, and the
delay after a SIGTERM at which it exits. -/
structure LiveProcBehavior where
  gracefulExitDelay : Nat
  sigtermExitDelay : Nat
deriving DecidableEq, Repr

/-- Observable actions of YouTubeLiveStreamer.stop. -/
inductive StopEvent
  | writeStdinQuit
  | closeStdin
  | warnQuitFailed
  | sigterm
deriving DecidableEq, Repr

/-- One run of YouTubeLiveStreamer.stop: final instance state, timestamped
actions (ms from the call), when the subprocess exited (none when there
was no subprocess), and when the returned promise resolved. The promise
executor has no reject path, so a run never rejects. -/
structure StopRun where
  finalState : StreamerState
  events : List (Nat × StopEvent)
  exitTime : Option Nat
  resolveTime : Option Nat
deriving DecidableEq, Repr

/-- Embedding of YouTubeLiveStreamer.stop: returns at once when process is
null; otherwise writes the textual quit signal and closes stdin (falling
back to SIGTERM when the write throws), arms a 15000 ms grace timer that
sends SIGTERM if the process has not exited (the exit handler clears the
timer), and resolves in the exit handler after setting process to null. -/
def stop (s : StreamerState) (b : LiveProcBehavior) : StopRun :=
  match s.process with
  | none => ⟨⟨none⟩, [], none, some 0⟩
  | some p =>
    match p.stdin with
    | StdinState.writable =>
        if b.gracefulExitDelay ≤ 15000 then
          ⟨⟨none⟩, [(0, StopEvent.writeStdinQuit), (0, StopEvent.closeStdin)],
            some b.gracefulExitDelay, some b.gracefulExitDelay⟩
        else
          let te := min b.gracefulExitDelay (15000 + b.sigtermExitDelay)
          ⟨⟨none⟩, [(0, StopEvent.writeStdinQuit), (0, StopEvent.closeStdin),
            (15000, StopEvent.sigterm)], some te, some te⟩
    | StdinState.absent =>
        if b.gracefulExitDelay ≤ 15000 then
          ⟨⟨none⟩, [], some b.gracefulExitDelay, some b.gracefulExitDelay⟩
        else
          let te := min b.gracefulExitDelay (15000 + b.sigtermExitDelay)
          ⟨⟨none⟩, [(15000, StopEvent.sigterm)], some te, some te⟩
    | StdinState.broken =>
        ⟨⟨none⟩, [(0, StopEvent.warnQuitFailed), (0, StopEvent.sigterm)],
          some b.sigtermExitDelay, some b.sigtermExitDelay⟩

/-- How a pending writeChunk promise resolved. -/
inductive WriteOutcome
  | resolvedImmediately
  | resolvedOnDrain
deriving DecidableEq, Repr

/-- Embedding of YouTubeLiveStreamer.writeChunk: throws when there is no
process or no stdin; otherwise stdin.write(chunk) returns canWrite, and
the promise resolves at once when canWrite is true, else only on the next
stdin drain event; a throwing write rejects the promise. -/
def writeChunk (s : StreamerState) (chunk : List Nat) (canWrite : Bool) :
    Except String WriteOutcome :=
  match s.process with
  | none => Except.error "ffmpeg live process is not running"
  | some p =>
    match p.stdin with
    | StdinState.absent => Except.error "ffmpeg live process is not running"
    | StdinState.broken => Except.error "stdin write failed"
    | StdinState.writable =>
        if canWrite then Except.ok WriteOutcome.resolvedImmediately
        else Except.ok WriteOutcome.resolvedOnDrain

end YouTubeLiveStreamer

namespace FFmpegRecorder

/-- Handle on the spawned durable-recorder ffmpeg subprocess: whether
kill() was already called, its exit code if it already exited, and its
stdin state. -/
structure FFProc where
  killed : Bool
  exitCode : Option Int
  stdin : StdinState
deriving DecidableEq, Repr

/-- The FFmpegRecorder instance state: its (nullable) subprocess. -/
structure FFState where
  ffmpegProcess : Option FFProc
deriving DecidableEq, Repr

/-- Environment behaviour of the recorder subprocess during stop: delay to
a voluntary exit after the quit signal, delay to exit after SIGTERM, and
delay to exit after SIGKILL. -/
structure FFBehavior where
  gracefulExitDelay : Nat
  sigtermExitDelay : Nat
  sigkillExitDelay : Nat
deriving DecidableEq, Repr

/-- Observable actions of FFmpegRecorder.stop. -/
inductive FFStopEvent
  | warnNoProcess
  | quitSignal
  | sigtermFallback
  | sigtermAfterGrace
  | sigkillAfterGrace
deriving DecidableEq, Repr

/-- One run of FFmpegRecorder.stop: final instance state, actions in
order, and whether the returned promise resolved (its executor has no
reject path). -/
structure FFStopRun where
  finalState : FFState
  events : List FFStopEvent
  resolved : Bool
deriving DecidableEq, Repr

/-- Embedding of FFmpegRecorder.stop: resolves at once (with a warning)
when ffmpegProcess is null; otherwise writes 'q' and closes stdin when
stdin exists (SIGTERM fallback when the write throws), resolves at once
while clearing the process field when the process already exited, and
otherwise waits for exit with a 15 s SIGTERM grace timer and a further
5 s SIGKILL escalation; every exit path resolves and clears the process
field. -/
def stop (s : FFState) (b : FFBehavior) : FFStopRun :=
  match s.ffmpegProcess with
  | none => ⟨s, [FFStopEvent.warnNoProcess], true⟩
  | some p =>
    match p.stdin with
    | StdinState.broken =>
        ⟨⟨none⟩, [FFStopEvent.sigtermFallback], true⟩
    | StdinState.writable =>
        if p.killed || p.exitCode.isSome then
          ⟨⟨none⟩, [FFStopEvent.quitSignal], true⟩
        else if b.gracefulExitDelay ≤ 15000 then
          ⟨⟨none⟩, [FFStopEvent.quitSignal], true⟩
        else if b.sigtermExitDelay ≤ 5000 then
          ⟨⟨none⟩, [FFStopEvent.quitSignal, FFStopEvent.sigtermAfterGrace], true⟩
        else
          ⟨⟨none⟩, [FFStopEvent.quitSignal, FFStopEvent.sigtermAfterGrace,
            FFStopEvent.sigkillAfterGrace], true⟩
    | StdinState.absent =>
        if p.killed || p.exitCode.isSome then
          ⟨⟨none⟩, [], true⟩
        else if b.gracefulExitDelay ≤ 15000 then
          ⟨⟨none⟩, [], true⟩
        else if b.sigtermExitDelay ≤ 5000 then
          ⟨⟨none⟩, [FFStopEvent.sigtermAfterGrace], true⟩
        else
          ⟨⟨none⟩, [FFStopEvent.sigtermAfterGrace, FFStopEvent.sigkillAfterGrace], true⟩

end FFmpegRecorder

/-- Helper: FFmpegRecorder.stop always leaves ffmpegProcess cleared. -/
lemma ffmpeg_stop_clears_process (s : FFmpegRecorder.FFState)
    (b : FFmpegRecorder.FFBehavior) :
    (FFmpegRecorder.stop s b).finalState = ⟨none⟩ := by
  rcases s with ⟨_ | p⟩
  · rfl
  · rcases p with ⟨k, ec, st⟩
    cases st <;> simp only [FFmpegRecorder.stop] <;> split <;> try rfl
    all_goals split <;> try rfl
    all_goals split <;> rfl

/-- Helper: YouTubeLiveStreamer.stop always leaves process cleared. -/
lemma yt_stop_clears_process (s : YouTubeLiveStreamer.StreamerState)
    (b : YouTubeLiveStreamer.LiveProcBehavior) :
    (YouTubeLiveStreamer.stop s b).finalState = ⟨none⟩ := by
  rcases s with ⟨_ | p⟩
  · rfl
  · rcases p with ⟨st⟩
    cases st <;> simp only [YouTubeLiveStreamer.stop] <;> split <;> rfl

theorem sink_stop_idempotent (sF : FFmpegRecorder.FFState)
    (bF bF' : FFmpegRecorder.FFBehavior)
    (sY : YouTubeLiveStreamer.StreamerState)
    (bY bY' : YouTubeLiveStreamer.LiveProcBehavior) :
    FFmpegRecorder.stop ⟨none⟩ bF =
      ⟨⟨none⟩, [FFmpegRecorder.FFStopEvent.warnNoProcess], true⟩ ∧
    YouTubeLiveStreamer.stop ⟨none⟩ bY = ⟨⟨none⟩, [], none, some 0⟩ ∧
    (FFmpegRecorder.stop sF bF).finalState = ⟨none⟩ ∧
    (YouTubeLiveStreamer.stop sY bY).finalState = ⟨none⟩ ∧
    FFmpegRecorder.stop (FFmpegRecorder.stop sF bF).finalState bF' =
      ⟨⟨none⟩, [FFmpegRecorder.FFStopEvent.warnNoProcess], true⟩ ∧
    YouTubeLiveStreamer.stop (YouTubeLiveStreamer.stop sY bY).finalState bY' =
      ⟨⟨none⟩, [], none, some 0⟩ := by
  refine ⟨rfl, rfl, ffmpeg_stop_clears_process sF bF, yt_stop_clears_process sY bY, ?_, ?_⟩
  · rw [ffmpeg_stop_clears_process sF bF]
    rfl
  · rw [yt_stop_clears_process sY bY]
    rfl

theorem yt_stop_quit_grace_sigterm (s : YouTubeLiveStreamer.StreamerState)
    (p : YouTubeLiveStreamer.LiveProc) (b : YouTubeLiveStreamer.LiveProcBehavior)
    (hp : s.process = some p) (hw : p.stdin = StdinState.writable) :
    (YouTubeLiveStreamer.stop s b).events.take 2 =
      [(0, YouTubeLiveStreamer.StopEvent.writeStdinQuit),
        (0, YouTubeLiveStreamer.StopEvent.closeStdin)] ∧
    (∀ e ∈ (YouTubeLiveStreamer.stop s b).events,
      e.2 = YouTubeLiveStreamer.StopEvent.sigterm → e.1 = 15000) ∧
    (b.gracefulExitDelay ≤ 15000 →
      (YouTubeLiveStreamer.stop s b).events =
        [(0, YouTubeLiveStreamer.StopEvent.writeStdinQuit),
          (0, YouTubeLiveStreamer.StopEvent.closeStdin)] ∧
      (YouTubeLiveStreamer.stop s b).exitTime = some b.gracefulExitDelay) ∧
    (15000 < b.gracefulExitDelay →
      (15000, YouTubeLiveStreamer.StopEvent.sigterm) ∈
        (YouTubeLiveStreamer.stop s b).events) ∧
    (YouTubeLiveStreamer.stop s b).resolveTime = (YouTubeLiveStreamer.stop s b).exitTime ∧
    (YouTubeLiveStreamer.stop s b).exitTime.isSome = true := by
  rcases s with ⟨pr⟩
  cases hp
  rcases p with ⟨st⟩
  cases hw
  by_cases hg : b.gracefulExitDelay ≤ 15000
  · simp [YouTubeLiveStreamer.stop, hg]
  · simp [YouTubeLiveStreamer.stop, hg]

theorem yt_writeChunk_backpressure (s : YouTubeLiveStreamer.StreamerState)
    (chunk : List Nat) (canWrite : Bool) :
    (s.process = none →
      YouTubeLiveStreamer.writeChunk s chunk canWrite =
        Except.error "ffmpeg live process is not running") ∧
    (∀ p, s.process = some p → p.stdin = StdinState.absent →
      YouTubeLiveStreamer.writeChunk s chunk canWrite =
        Except.error "ffmpeg live process is not running") ∧
    (∀ p, s.process = some p → p.stdin = StdinState.writable →
      (canWrite = true →
        YouTubeLiveStreamer.writeChunk s chunk canWrite =
          Except.ok YouTubeLiveStreamer.WriteOutcome.resolvedImmediately) ∧
      (canWrite = false →
        YouTubeLiveStreamer.writeChunk s chunk canWrite =
          Except.ok YouTubeLiveStreamer.WriteOutcome.resolvedOnDrain)) := by
  refine ⟨?_, ?_, ?_⟩
  · intro h
    simp [YouTubeLiveStreamer.writeChunk, h]
  · rintro p hp ha
    rcases s with ⟨pr⟩
    cases hp
    simp [YouTubeLiveStreamer.writeChunk, ha]
  · rintro p hp hw
    rcases s with ⟨pr⟩
    cases hp
    constructor <;> rintro rfl <;> simp [YouTubeLiveStreamer.writeChunk, hw]

/-- In-page MediaRecorder ondataavailable handler (RecordingTask.execute):
returns early when the delivered chunk has size zero, otherwise forwards
the chunk bytes to sendChunkToServer. -/
def ondataavailable (chunk : List Nat) : Option (List Nat) :=
  if chunk.length = 0 then none else some chunk

/-- The chunks that reach sendChunkToServer, in arrival order, for a given
arrival sequence of MediaRecorder chunks. -/
def chunksSentToServer (chunks : List (List Nat)) : List (List Nat) :=
  chunks.filterMap ondataavailable

theorem chunks_sent_nonempty :
    ondataavailable [] = none ∧
    ∀ (chunks : List (List Nat)) (c : List Nat),
      c ∈ chunksSentToServer chunks → 0 < c.length := by
  constructor
  · rfl
  · intro chunks c hc
    rw [chunksSentToServer, List.mem_filterMap] at hc
    obtain ⟨a, _, ha⟩ := hc
    unfold ondataavailable at ha
    by_cases h : a.length = 0
    · rw [if_pos h] at ha
      cases ha
    · rw [if_neg h] at ha
      cases ha
      omega

/-- A concrete running live-restream state with writable stdin. -/
def runningStreamer : YouTubeLiveStreamer.StreamerState :=
  ⟨some ⟨StdinState.writable⟩⟩

theorem yt_stop_quit_grace_sigterm_witness :
    (YouTubeLiveStreamer.stop runningStreamer ⟨20000, 3000⟩).events.take 2 =
      [(0, YouTubeLiveStreamer.StopEvent.writeStdinQuit),
        (0, YouTubeLiveStreamer.StopEvent.closeStdin)] ∧
    (∀ e ∈ (YouTubeLiveStreamer.stop runningStreamer ⟨20000, 3000⟩).events,
      e.2 = YouTubeLiveStreamer.StopEvent.sigterm → e.1 = 15000) ∧
    ((20000 : Nat) ≤ 15000 →
      (YouTubeLiveStreamer.stop runningStreamer ⟨20000, 3000⟩).events =
        [(0, YouTubeLiveStreamer.StopEvent.writeStdinQuit),
          (0, YouTubeLiveStreamer.StopEvent.closeStdin)] ∧
      (YouTubeLiveStreamer.stop runningStreamer ⟨20000, 3000⟩).exitTime = some 20000) ∧
    ((15000 : Nat) < 20000 →
      (15000, YouTubeLiveStreamer.StopEvent.sigterm) ∈
        (YouTubeLiveStreamer.stop runningStreamer ⟨20000, 3000⟩).events) ∧
    (YouTubeLiveStreamer.stop runningStreamer ⟨20000, 3000⟩).resolveTime =
      (YouTubeLiveStreamer.stop runningStreamer ⟨20000, 3000⟩).exitTime ∧
    (YouTubeLiveStreamer.stop runningStreamer ⟨20000, 3000⟩).exitTime.isSome = true :=
  yt_stop_quit_grace_sigterm runningStreamer ⟨StdinState.writable⟩ ⟨20000, 3000⟩ rfl rfl

theorem yt_writeChunk_backpressure_witness :
    (runningStreamer.process = none →
      YouTubeLiveStreamer.writeChunk runningStreamer [1, 2] true =
        Except.error "ffmpeg live process is not running") ∧
    (∀ p, runningStreamer.process = some p → p.stdin = StdinState.absent →
      YouTubeLiveStreamer.writeChunk runningStreamer [1, 2] true =
        Except.error "ffmpeg live process is not running") ∧
    (∀ p, runningStreamer.process = some p → p.stdin = StdinState.writable →
      (true = true →
        YouTubeLiveStreamer.writeChunk runningStreamer [1, 2] true =
          Except.ok YouTubeLiveStreamer.WriteOutcome.resolvedImmediately) ∧
      (true = false →
        YouTubeLiveStreamer.writeChunk runningStreamer [1, 2] true =
          Except.ok YouTubeLiveStreamer.WriteOutcome.resolvedOnDrain)) :=
  yt_writeChunk_backpressure runningStreamer [1, 2] true

theorem chunks_sent_nonempty_witness :
    [5] ∈ chunksSentToServer [[5], [], [7, 8]] ∧ 0 < [5].length :=
  ⟨by decide, chunks_sent_nonempty.2 [[5], [], [7, 8]] [5] (by decide)⟩
